import Mathlib

/-!
Shallow embedding of the Voltz v1-sbf backtesting core: the Rate Feed
(`HistoricCSVDataHandler` in `data.py`) and the Portfolio (`NaivePortfolio`,
whose behaviour is pinned by `test_portfolio.py`).

Conventions: timestamps are `Nat`, liquidity-index and money values are `Rat`,
Python dictionaries keyed by token become `String → Option _` functions
(`none` = key absent), Python lists become `List`, and the Python generator
per token becomes the list of not-yet-revealed observations.
-/

/-- A rate observation tuple `(token, datetime, liquidityIndex)` as yielded by
`HistoricCSVDataHandler._get_new_rate` (`data.py` lines 109-115). -/
structure Rate where
  token : String
  timestamp : Nat
  liquidityIndex : Rat
deriving DecidableEq, Repr

/-- Modelled from the spec: the closed set of event message types (`event.py`
is not available under src/); only the market-data event matters to the Rate
Feed, which constructs `MarketEvent()` in `update_rates`. -/
inductive Event where
  | market
deriving DecidableEq, Repr

/-- State of `HistoricCSVDataHandler` (`data.py` lines 43-95): `token_data t`
is the list of observations of token `t` not yet revealed (the remainder of
the `iterrows()` generator), `latest_token_data t` is the dictionary entry
holding the revealed history (`none` when the key is absent),
`continue_backtest` is the terminal flag, `events` the FIFO event queue. -/
structure DHState where
  token_list : List String
  token_data : String → List Rate
  latest_token_data : String → Option (List Rate)
  continue_backtest : Bool
  events : List Event

/-- Python slice `l[-N:]` for a natural `N`: the whole list when `N = 0`
(since `-0 = 0`), otherwise the last `min N l.length` elements. -/
def pySliceFromNeg (l : List α) (N : Nat) : List α :=
  if N = 0 then l else l.drop (l.length - N)

/-- Embeds `HistoricCSVDataHandler.get_latest_rates` (`data.py` lines
97-107): a `KeyError` on `latest_token_data[token]` is caught, a warning is
printed and the function falls through returning Python `None` (here `none`);
otherwise it returns `rates_list[-N:]`. The function never raises. -/
def get_latest_rates (s : DHState) (token : String) (N : Nat) :
    Option (List Rate) :=
  (s.latest_token_data token).map (fun rates_list => pySliceFromNeg rates_list N)

/-- Console output of `get_latest_rates` (`data.py` line 105): a single
warning line in the `KeyError` branch, nothing otherwise. -/
def get_latest_rates_output (s : DHState) (token : String) : List String :=
  match s.latest_token_data token with
  | none => ["That token is not available in the historical data set."]
  | some _ => []

/-- Modelled from the spec: the `UnknownTokenError` failure named in the spec
for `get_latest_rates` on an unregistered token (no such error class exists
anywhere under src/). -/
inductive UnknownTokenError where
  | unknownToken (token : String)
deriving DecidableEq, Repr

/-- Modelled from the spec: `get_latest_rates` as the spec describes it,
failing with `UnknownTokenError` when the token was never registered; used
only to compare the spec's words with the source embedding
`get_latest_rates`. -/
def get_latest_rates_spec (s : DHState) (token : String) (N : Nat) :
    Except UnknownTokenError (List Rate) :=
  match s.latest_token_data token with
  | none => Except.error (UnknownTokenError.unknownToken token)
  | some rates_list => Except.ok (pySliceFromNeg rates_list N)

/-- The per-token loop body of `update_rates` (`data.py` lines 87-94): take
the next observation from token `t`'s generator; on `StopIteration` set
`continue_backtest = False`, otherwise append the observation to
`latest_token_data[t]`. -/
def update_one (s : DHState) (t : String) : DHState :=
  match s.token_data t with
  | [] => { s with continue_backtest := false }
  | r :: rest =>
      { s with
        token_data := fun u => if u = t then rest else s.token_data u,
        latest_token_data := fun u =>
          if u = t then (s.latest_token_data u).map (fun l => l ++ [r])
          else s.latest_token_data u }

/-- Embeds `HistoricCSVDataHandler.update_rates` (`data.py` lines 82-95):
the per-token loop followed by the unconditional
`self.events.put(MarketEvent())`. -/
def update_rates (s : DHState) : DHState :=
  let s2 := s.token_list.foldl update_one s
  { s2 with events := s2.events ++ [Event.market] }

/-- The revealed Latest-Rate History of token `t` (empty when the dictionary
key is absent). -/
def revealed (s : DHState) (t : String) : List Rate :=
  (s.latest_token_data t).getD []

/-- Strictly increasing timestamps along a list of observations. -/
def StrictlyIncreasing (l : List Rate) : Prop :=
  l.Pairwise (fun a b => a.timestamp < b.timestamp)

instance (l : List Rate) : Decidable (StrictlyIncreasing l) := by
  unfold StrictlyIncreasing
  infer_instance

/-! ## Construction-time index alignment (`_open_convert_csv_files`) -/

/-- Sorted union of two sorted duplicate-free timestamp indices, as
`pandas.Index.union` returns it (a fresh object; the receiver is not
modified): the elements of the second index smaller than the head of the
first come first, then the head, then the union of the tails. -/
def indexUnion : List Nat → List Nat → List Nat
  | [], j => j
  | a :: as, j =>
      (j.filter (fun b => decide (b < a))) ++ a ::
        indexUnion as (j.filter (fun b => decide (a < b)))

/-- Embeds the `comb_index` accumulation of
`HistoricCSVDataHandler._open_convert_csv_files` (`data.py` lines 196-201):
`comb_index` starts as `None`, becomes the first token's index, and for every
later token the expression `comb_index.union(...)` computes a union whose
result is discarded (it is not assigned back), so the accumulator keeps the
first token's index. -/
def comb_index (idx : String → List Nat) (tokens : List String) :
    Option (List Nat) :=
  tokens.foldl
    (fun acc t =>
      match acc with
      | none => some (idx t)
      | some i =>
          let _discarded := indexUnion i (idx t)
          some i)
    none

/-- Modelled from the spec: the index accumulation the spec (and the code's
own comment "Combine the index to pad forward values") describes, where each
later token's index is merged into the accumulator by union. -/
def comb_index_spec (idx : String → List Nat) (tokens : List String) :
    Option (List Nat) :=
  tokens.foldl
    (fun acc t =>
      match acc with
      | none => some (idx t)
      | some i => some (indexUnion i (idx t)))
    none

/-- Forward-fill lookup used by `reindex(index=comb_index, method='pad')`
(`data.py` line 208): the value at the greatest original timestamp that is
at most `ts`, or `none` when every original timestamp is later. -/
def padLookup (series : List (Nat × Rat)) (ts : Nat) : Option Rat :=
  ((series.filter (fun p => p.1 ≤ ts)).getLast?).map Prod.snd

/-- Embeds `df.reindex(index=comb_index, method='pad')` for a series with a
sorted timestamp index: one row per label of the new index, forward-filled
from the original series. -/
def reindex_pad (series : List (Nat × Rat)) (index : List Nat) :
    List (Nat × Option Rat) :=
  index.map (fun ts => (ts, padLookup series ts))

/-! ## Portfolio (`NaivePortfolio`)

The file `portfolio.py` is not available under src/; the definitions below
are modelled from the spec and calibrated to the literal regression values of
`test_portfolio.py` (Scenarios A, C and D), which pin down the bookkeeping:
an opening fill moves only the fee (cash and total both decrease by the fee;
the notional of an interest-rate-swap position is not exchanged), and a
snapshot's `total` is the updated cash plus the sum of per-token values. -/

/-- A fill event `(token, fee, timestamp, notional, direction)` as built by
`FillEvent(...)` in `test_portfolio.py`. -/
structure FillEvent where
  token : String
  fee : Rat
  timestamp : Nat
  notional : Rat
  direction : String
deriving DecidableEq, Repr

/-- One holdings record: per-token mark-to-market values, cash, cumulative
fee and total. Used both for `current_holdings` and for the Holdings
Snapshots appended to `all_holdings`. -/
structure Holdings where
  value : String → Rat
  cash : Rat
  fee : Rat
  total : Rat

/-- Sum of the per-token values of a holdings record over the token list. -/
def sumValues (tokens : List String) (v : String → Rat) : Rat :=
  (tokens.map v).sum

/-- One Equity Curve Row: the snapshot fields plus `returns`
(period-over-period change of `total`; `none` models the NaN of the first
row of `pct_change`) and `equity_curve` (cumulative product of
`1 + returns`; `none` on the first row). -/
structure EquityRow where
  value : String → Rat
  cash : Rat
  fee : Rat
  total : Rat
  returns : Option Rat
  equity_curve : Option Rat

/-- Modelled from the spec: the `NaivePortfolio` state — the token list, the
current holdings, the append-only Holdings Snapshot sequence and the equity
curve produced by finalisation (`none` before `create_equity_curve_dataframe`
has run). -/
structure NaivePortfolio where
  token_list : List String
  initial_capital : Rat
  current_holdings : Holdings
  all_holdings : List Holdings
  equity_curve : Option (List EquityRow)

/-- Modelled from the spec: freshly constructed holdings — zero per-token
value, cash and total equal to the initial capital, zero cumulative fee. -/
def construct_holdings (capital : Rat) : Holdings :=
  { value := fun _ => 0, cash := capital, fee := 0, total := capital }

/-- Modelled from the spec: `NaivePortfolio` construction with a token list
and starting capital; `all_holdings` starts with the initial snapshot. -/
def construct_portfolio (tokens : List String) (capital : Rat) :
    NaivePortfolio :=
  { token_list := tokens
    initial_capital := capital
    current_holdings := construct_holdings capital
    all_holdings := [construct_holdings capital]
    equity_curve := none }

/-- Modelled from the spec: `NaivePortfolio.update_holdings_from_fill`,
calibrated to Scenario C / `test_update_holdings_from_fill` (fee 10,
notional 1000, direction LONG on cash 1000 yields cash 990 and total 990):
the cumulative fee accumulates the fill's fee, and cash and total both
decrease by the fee — the notional is not exchanged. -/
def update_holdings_from_fill (p : NaivePortfolio) (f : FillEvent) :
    NaivePortfolio :=
  { p with
    current_holdings :=
      { p.current_holdings with
        fee := p.current_holdings.fee + f.fee
        cash := p.current_holdings.cash - f.fee
        total := p.current_holdings.total - f.fee } }

/-- Modelled from the spec: `NaivePortfolio.update_timeindex`, calibrated to
Scenarios A and D — appends a Holdings Snapshot carrying the latest per-token
mark-to-market values `mv` (the valuation function is pluggable, spec §9) and
the current cash/fee, with `total` recomputed as cash plus the sum of the
per-token values. -/
def update_timeindex (p : NaivePortfolio) (mv : String → Rat) :
    NaivePortfolio :=
  { p with
    all_holdings := p.all_holdings ++
      [{ value := mv
         cash := p.current_holdings.cash
         fee := p.current_holdings.fee
         total := p.current_holdings.cash + sumValues p.token_list mv }] }

/-- Modelled from the spec: one pass of the equity-curve computation —
`returns` is `pct_change` of `total` and `equity_curve` the cumulative
product of `1 + returns` (NaN of the first row modelled as `none`, skipped
by the cumulative product as pandas `cumprod` skips NaN). The accumulator
carries the previous row's `total` and the running product. -/
def equityRowsAux (acc : Option (Rat × Rat)) : List Holdings → List EquityRow
  | [] => []
  | h :: rest =>
      match acc with
      | none =>
          { value := h.value, cash := h.cash, fee := h.fee, total := h.total
            returns := none, equity_curve := none } ::
            equityRowsAux (some (h.total, 1)) rest
      | some (prev, prod) =>
          let r := h.total / prev - 1
          let e := prod * (1 + r)
          { value := h.value, cash := h.cash, fee := h.fee, total := h.total
            returns := some r, equity_curve := some e } ::
            equityRowsAux (some (h.total, e)) rest

/-- The Equity Curve Rows derived from a Holdings Snapshot sequence. -/
def equityCurveRows (snaps : List Holdings) : List EquityRow :=
  equityRowsAux none snaps

/-- Modelled from the spec: `NaivePortfolio.create_equity_curve_dataframe` —
a pure function of the already-recorded snapshots, writing the derived rows
into the `equity_curve` field and touching nothing else. -/
def create_equity_curve_dataframe (p : NaivePortfolio) : NaivePortfolio :=
  { p with equity_curve := some (equityCurveRows p.all_holdings) }

/-! ## Concrete feed states used as test inputs -/

/-- First observation of the single-token example series. -/
def obs1 : Rate := { token := "aave_usdc", timestamp := 1, liquidityIndex := 1 }

/-- Second observation of the single-token example series. -/
def obs2 : Rate := { token := "aave_usdc", timestamp := 2, liquidityIndex := 2 }

/-- Third observation of the single-token example series. -/
def obs3 : Rate := { token := "aave_usdc", timestamp := 3, liquidityIndex := 3 }

/-- A freshly constructed feed for the single token `aave_usdc` with three
observations still to reveal. -/
def feedState : DHState :=
  { token_list := ["aave_usdc"]
    token_data := fun u => if u = "aave_usdc" then [obs1, obs2, obs3] else []
    latest_token_data := fun u => if u = "aave_usdc" then some [] else none
    continue_backtest := true
    events := [] }

/-- The same feed after its series has been fully revealed and a further
`update_rates()` call has hit `StopIteration`: the terminal condition has
already triggered and no observation is left. -/
def exhaustedState : DHState :=
  { token_list := ["aave_usdc"]
    token_data := fun _ => []
    latest_token_data := fun u => if u = "aave_usdc" then some [obs1, obs2, obs3] else none
    continue_backtest := false
    events := [] }

/-! ## Basic step lemmas for `update_rates` -/

/-- The per-token loop body never touches the event queue. -/
theorem update_one_events (s : DHState) (t : String) :
    (update_one s t).events = s.events := by
  cases hd : s.token_data t with
  | nil => simp [update_one, hd]
  | cons r rest => simp [update_one, hd]

/-- The whole per-token loop never touches the event queue. -/
theorem foldl_update_one_events (ts : List String) (s : DHState) :
    (ts.foldl update_one s).events = s.events := by
  induction ts generalizing s with
  | nil => rfl
  | cons t ts ih => rw [List.foldl_cons, ih, update_one_events]

/-- The per-token loop body never clears the terminal condition. -/
theorem update_one_continue (s : DHState) (t : String)
    (h : s.continue_backtest = false) :
    (update_one s t).continue_backtest = false := by
  cases hd : s.token_data t with
  | nil => simp [update_one, hd]
  | cons r rest => simp [update_one, hd, h]

/-- The whole per-token loop never clears the terminal condition. -/
theorem foldl_update_one_continue (ts : List String) (s : DHState)
    (h : s.continue_backtest = false) :
    (ts.foldl update_one s).continue_backtest = false := by
  induction ts generalizing s with
  | nil => exact h
  | cons t ts ih => exact ih _ (update_one_continue s t h)

/-- One `update_rates()` call never clears the terminal condition. -/
theorem update_rates_continue (s : DHState)
    (h : s.continue_backtest = false) :
    (update_rates s).continue_backtest = false :=
  foldl_update_one_continue s.token_list s h

/-- C2 (counterexample): with the terminal condition already triggered and
every series exhausted, a further `update_rates()` call reveals nothing yet
still enqueues a market-data event — `self.events.put(MarketEvent())` is
unconditional — contradicting the claim's exception clause. -/
theorem update_rates_event_after_exhaustion :
    exhaustedState.continue_backtest = false ∧
    revealed (update_rates exhaustedState) "aave_usdc" =
      revealed exhaustedState "aave_usdc" ∧
    (update_rates exhaustedState).events.length =
      exhaustedState.events.length + 1 := by
  refine ⟨rfl, rfl, rfl⟩

/-- C2 (amended): every call to `update_rates()` enqueues exactly one
market-data event, unconditionally — regardless of how many tokens advanced
and also after the terminal condition has triggered. -/
theorem update_rates_enqueues_one_event (s : DHState) :
    (update_rates s).events = s.events ++ [Event.market] := by
  show (s.token_list.foldl update_one s).events ++ [Event.market] =
    s.events ++ [Event.market]
  rw [foldl_update_one_events]

/-- C4: once `continue_backtest` is false, any number of further
`update_rates()` calls leaves it false — the terminal condition is sticky. -/
theorem continue_backtest_sticky (s : DHState) (n : Nat)
    (h : s.continue_backtest = false) :
    (update_rates^[n] s).continue_backtest = false := by
  induction n generalizing s with
  | zero => exact h
  | succ n ih =>
      rw [Function.iterate_succ_apply]
      exact ih _ (update_rates_continue s h)

/-- C4 (witness): the sticky-exhaustion theorem applied to the concrete
exhausted feed and two further calls. -/
theorem continue_backtest_sticky_witness :
    exhaustedState.continue_backtest = false ∧
    (update_rates^[2] exhaustedState).continue_backtest = false :=
  ⟨rfl, continue_backtest_sticky exhaustedState 2 rfl⟩

/-! ## Monotonicity of the revealed history -/

/-- The per-token loop body preserves strict monotonicity of the
revealed-plus-unrevealed series of every token: it only moves the head of a
token's unrevealed list onto the end of its revealed list. -/
theorem update_one_strictly_increasing (s : DHState) (t u : String)
    (h : StrictlyIncreasing (revealed s u ++ s.token_data u)) :
    StrictlyIncreasing
      (revealed (update_one s t) u ++ (update_one s t).token_data u) := by
  cases hd : s.token_data t with
  | nil =>
      simpa [update_one, hd, revealed] using h
  | cons r rest =>
      by_cases hut : u = t
      · subst hut
        cases hl : s.latest_token_data u with
        | none =>
            rw [revealed, hl, Option.getD_none, List.nil_append, hd] at h
            have hgoal :
                revealed (update_one s u) u ++ (update_one s u).token_data u
                  = rest := by
              simp [update_one, hd, revealed, hl]
            rw [hgoal]
            exact h.sublist (List.sublist_cons_self r rest)
        | some l =>
            rw [revealed, hl, Option.getD_some, hd] at h
            have hgoal :
                revealed (update_one s u) u ++ (update_one s u).token_data u
                  = l ++ (r :: rest) := by
              simp [update_one, hd, revealed, hl]
            rw [hgoal]
            exact h
      · simpa [update_one, hd, revealed, if_neg hut] using h

/-- The whole per-token loop preserves strict monotonicity of the
revealed-plus-unrevealed series of any one token. -/
theorem foldl_update_one_strictly_increasing (ts : List String) (s : DHState)
    (u : String) (h : StrictlyIncreasing (revealed s u ++ s.token_data u)) :
    StrictlyIncreasing
      (revealed (ts.foldl update_one s) u ++ (ts.foldl update_one s).token_data u) := by
  induction ts generalizing s with
  | nil => exact h
  | cons t ts ih => exact ih _ (update_one_strictly_increasing s t u h)

/-- One `update_rates()` call preserves strict monotonicity of the
revealed-plus-unrevealed series of any one token. -/
theorem update_rates_strictly_increasing (s : DHState) (u : String)
    (h : StrictlyIncreasing (revealed s u ++ s.token_data u)) :
    StrictlyIncreasing
      (revealed (update_rates s) u ++ (update_rates s).token_data u) :=
  foldl_update_one_strictly_increasing s.token_list s u h

/-- C9: when a token's cleaned series has strictly increasing timestamps (as
the construction pipeline guarantees via the sorted resampled index), the
revealed Latest-Rate History of that token still has strictly increasing
timestamps after any number of `update_rates()` calls. -/
theorem revealed_timestamps_strictly_increasing (s : DHState) (t : String)
    (n : Nat)
    (h : StrictlyIncreasing (revealed s t ++ s.token_data t)) :
    StrictlyIncreasing (revealed (update_rates^[n] s) t) := by
  have key : ∀ m s',
      StrictlyIncreasing (revealed s' t ++ s'.token_data t) →
      StrictlyIncreasing
        (revealed (update_rates^[m] s') t ++ (update_rates^[m] s').token_data t) := by
    intro m
    induction m with
    | zero => intro s' h'; exact h'
    | succ m ih =>
        intro s' h'
        rw [Function.iterate_succ_apply]
        exact ih _ (update_rates_strictly_increasing s' t h')
  have h2 := key n s h
  unfold StrictlyIncreasing at h2 ⊢
  exact h2.sublist (List.sublist_append_left _ _)

/-- C9 (witness): the monotonicity theorem applied to the concrete fresh
feed after two `update_rates()` calls. -/
theorem revealed_timestamps_strictly_increasing_witness :
    StrictlyIncreasing (revealed (update_rates^[2] feedState) "aave_usdc") :=
  revealed_timestamps_strictly_increasing feedState "aave_usdc" 2 (by decide)

/-! ## Lookup behaviour of `get_latest_rates` -/

/-- C3 (counterexample): querying a token that was never registered does not
fail with an `UnknownTokenError` — the source catches the dictionary
`KeyError`, prints a warning and returns `None` (a normal return, as the
error-free return type of `get_latest_rates` records), whereas the
spec-modelled variant fails. -/
theorem get_latest_rates_unknown_token_returns_none :
    get_latest_rates exhaustedState "btc" 1 = none ∧
    get_latest_rates_output exhaustedState "btc" =
      ["That token is not available in the historical data set."] ∧
    get_latest_rates_spec exhaustedState "btc" 1 =
      Except.error (UnknownTokenError.unknownToken "btc") := by
  refine ⟨rfl, rfl, rfl⟩

/-- C3 (amended): querying an unregistered token returns `None` after
printing a warning line, while a registered token always yields a list (the
empty list when nothing has been revealed — end-of-stream is not an
error, and prints nothing). -/
theorem get_latest_rates_unknown_vs_registered (s : DHState) (t : String)
    (N : Nat) :
    (s.latest_token_data t = none →
      get_latest_rates s t N = none ∧
      get_latest_rates_output s t =
        ["That token is not available in the historical data set."]) ∧
    (∀ l, s.latest_token_data t = some l →
      get_latest_rates s t N = some (pySliceFromNeg l N) ∧
      get_latest_rates_output s t = []) := by
  constructor
  · intro hnone
    exact ⟨by simp [get_latest_rates, hnone], by simp [get_latest_rates_output, hnone]⟩
  · intro l hsome
    exact ⟨by simp [get_latest_rates, hsome], by simp [get_latest_rates_output, hsome]⟩

/-- C3 (witness): the amended lookup theorem applied to the concrete feed,
once with an unregistered token and once with the registered one. -/
theorem get_latest_rates_unknown_vs_registered_witness :
    get_latest_rates exhaustedState "btc" 1 = none ∧
    get_latest_rates feedState "aave_usdc" 1 = some [] := by
  constructor
  · exact ((get_latest_rates_unknown_vs_registered exhaustedState "btc" 1).1
      (by decide)).1
  · exact ((get_latest_rates_unknown_vs_registered feedState "aave_usdc" 1).2
      [] (by decide)).1

/-- C7: for a registered token and `N ≥ 1`, `get_latest_rates` returns the
last `min N (length)` revealed observations — the suffix dropping all but
the last `N` — and the entire revealed history when it is shorter than
`N`. -/
theorem get_latest_rates_last_N (s : DHState) (t : String) (N : Nat)
    (l : List Rate) (hreg : s.latest_token_data t = some l) (hN : 1 ≤ N) :
    get_latest_rates s t N = some (l.drop (l.length - N)) ∧
    (l.drop (l.length - N)).length = min N l.length ∧
    (l.length ≤ N → get_latest_rates s t N = some l) := by
  have hne : N ≠ 0 := by omega
  refine ⟨by simp [get_latest_rates, hreg, pySliceFromNeg, hne], ?_, ?_⟩
  · rw [List.length_drop]
    omega
  · intro hlen
    have hzero : l.length - N = 0 := by omega
    simp [get_latest_rates, hreg, pySliceFromNeg, hne, hzero]

/-- C7 (witness): the last-N theorem applied to the fully revealed concrete
feed with `N = 2` (shorter than the history) and `N = 5` (longer, so the
whole history comes back). -/
theorem get_latest_rates_last_N_witness :
    get_latest_rates exhaustedState "aave_usdc" 2 = some [obs2, obs3] ∧
    get_latest_rates exhaustedState "aave_usdc" 5 = some [obs1, obs2, obs3] := by
  constructor
  · have h := (get_latest_rates_last_N exhaustedState "aave_usdc" 2
      [obs1, obs2, obs3] (by decide) (by decide)).1
    simpa using h
  · exact (get_latest_rates_last_N exhaustedState "aave_usdc" 5
      [obs1, obs2, obs3] (by decide) (by decide)).2.2 (by decide)

/-- C10: for a registered token, `get_latest_rates(token, 0)` returns the
entire revealed history, because the Python slice `rates_list[-0:]` is
`rates_list[0:]`, the whole list. -/
theorem get_latest_rates_zero (s : DHState) (t : String) (l : List Rate)
    (hreg : s.latest_token_data t = some l) :
    get_latest_rates s t 0 = some l := by
  simp [get_latest_rates, hreg, pySliceFromNeg]

/-- C10 (witness): the `N = 0` theorem applied to the fully revealed
concrete feed. -/
theorem get_latest_rates_zero_witness :
    get_latest_rates exhaustedState "aave_usdc" 0 = some [obs1, obs2, obs3] :=
  get_latest_rates_zero exhaustedState "aave_usdc" [obs1, obs2, obs3] (by decide)

/-! ## The discarded index union at construction -/

/-- Two-token index assignment exhibiting the discarded union: the second
token has a timestamp (3) the first one lacks. -/
def idxC6 : String → List Nat := fun t => if t = "tokenB" then [1, 2, 3] else [1, 2]

/-- C6: at the concrete two-token input, the `comb_index` accumulation of
the source keeps the first token's index `[1, 2]` — the union computed for
the second token is discarded because `comb_index.union(...)` is never
assigned back — so reindexing drops the second token's timestamp 3, while
the union described by the spec and by the code's own comment is
`[1, 2, 3]`. -/
theorem comb_index_drops_later_token_timestamps :
    comb_index idxC6 ["tokenA", "tokenB"] = some [1, 2] ∧
    comb_index_spec idxC6 ["tokenA", "tokenB"] = some [1, 2, 3] ∧
    comb_index idxC6 ["tokenA", "tokenB"] ≠
      comb_index_spec idxC6 ["tokenA", "tokenB"] ∧
    (reindex_pad [(1, 5), (2, 6), (3, 7)]
        ((comb_index idxC6 ["tokenA", "tokenB"]).getD [])).map Prod.fst = [1, 2] := by
  refine ⟨by decide, by decide, by decide, by decide⟩

/-! ## Portfolio bookkeeping theorems -/

/-- Portfolio operations that touch the holdings state: a fill and a
timeindex advance carrying the pluggable per-token valuation of that bar. -/
inductive PfOp where
  | fill (f : FillEvent)
  | timeindex (mv : String → Rat)

/-- Apply one portfolio operation. -/
def applyPfOp (p : NaivePortfolio) : PfOp → NaivePortfolio
  | PfOp.fill f => update_holdings_from_fill p f
  | PfOp.timeindex mv => update_timeindex p mv

/-- Run a portfolio from construction through a sequence of operations. -/
def runPf (tokens : List String) (capital : Rat) (ops : List PfOp) :
    NaivePortfolio :=
  ops.foldl applyPfOp (construct_portfolio tokens capital)

/-- Summing the constant-zero valuation gives zero. -/
theorem sumValues_zero (tokens : List String) :
    sumValues tokens (fun _ => (0 : Rat)) = 0 := by
  simp [sumValues]

/-- Every Holdings Snapshot of a portfolio satisfies the recorded-total
identity `total = cash + Σ(per-token value)`. -/
def SnapshotsConsistent (p : NaivePortfolio) : Prop :=
  ∀ h ∈ p.all_holdings, h.total = h.cash + sumValues p.token_list h.value

/-- Portfolio operations never change the token list. -/
theorem applyPfOp_token_list (p : NaivePortfolio) (op : PfOp) :
    (applyPfOp p op).token_list = p.token_list := by
  cases op <;> rfl

/-- Each portfolio operation preserves the recorded-total identity: a fill
leaves `all_holdings` untouched and a timeindex advance appends a snapshot
built with `total = cash + Σ value`. -/
theorem applyPfOp_snapshots_consistent (p : NaivePortfolio) (op : PfOp)
    (h : SnapshotsConsistent p) : SnapshotsConsistent (applyPfOp p op) := by
  cases op with
  | fill f =>
      intro x hx
      exact h x hx
  | timeindex mv =>
      intro x hx
      simp only [applyPfOp, update_timeindex, List.mem_append,
        List.mem_singleton] at hx
      rcases hx with hx | hx
      · exact h x hx
      · subst hx
        rfl

/-- C1 (amended): along any run of the modelled portfolio — construction,
then any sequence of fills and timeindex advances — every recorded Holdings
Snapshot satisfies `total = cash + Σ(per-token value)`; the cumulative fee
is not subtracted again, having already been deducted from cash when it was
charged. -/
theorem holdings_snapshot_total_consistent (tokens : List String)
    (capital : Rat) (ops : List PfOp) (h : Holdings)
    (hmem : h ∈ (runPf tokens capital ops).all_holdings) :
    h.total = h.cash + sumValues tokens h.value := by
  have hinit : SnapshotsConsistent (construct_portfolio tokens capital) := by
    intro x hx
    simp only [construct_portfolio, List.mem_singleton] at hx
    subst hx
    simp [construct_holdings, sumValues_zero]
  have hrun : ∀ (ops' : List PfOp) (p : NaivePortfolio), SnapshotsConsistent p →
      SnapshotsConsistent (ops'.foldl applyPfOp p) := by
    intro ops'
    induction ops' with
    | nil => intro p hp; exact hp
    | cons op rest ih =>
        intro p hp
        exact ih _ (applyPfOp_snapshots_consistent p op hp)
  have htl : (List.foldl applyPfOp (construct_portfolio tokens capital)
      ops).token_list = tokens := by
    have : ∀ (ops' : List PfOp) (p : NaivePortfolio),
        (ops'.foldl applyPfOp p).token_list = p.token_list := by
      intro ops'
      induction ops' with
      | nil => intro p; rfl
      | cons op rest ih =>
          intro p
          rw [List.foldl_cons, ih, applyPfOp_token_list]
    exact this ops _
  have := hrun ops _ hinit h hmem
  rwa [htl] at this

/-- C1 (witness): the recorded-total identity applied to the initial
snapshot of a freshly constructed single-token portfolio. -/
theorem holdings_snapshot_total_consistent_witness :
    (construct_holdings 1000).total =
      (construct_holdings 1000).cash +
        sumValues ["aave_usdc"] (construct_holdings 1000).value :=
  holdings_snapshot_total_consistent ["aave_usdc"] 1000 [] _
    (by simp [runPf, construct_portfolio])

/-- The Scenario D fill: `fee = 10, notional = 1000, direction = LONG`. -/
def fillD : FillEvent :=
  { token := "aave_usdc", fee := 10, timestamp := 3, notional := 1000,
    direction := "LONG" }

/-- The Scenario D portfolio: construction with capital 1000, the fill, then
one timeindex advance with per-token value 1000. -/
def portfolioD : NaivePortfolio :=
  update_timeindex
    (update_holdings_from_fill (construct_portfolio ["aave_usdc"] 1000) fillD)
    (fun _ => 1000)

/-- C1 (counterexample): the Scenario D snapshot recorded by the portfolio
(row 1, pinned by `test_equity_curve_dataframe`) has `total = 1990`,
`cash = 990`, `fee = 10` and per-token value sum `1000`, but
`cash - fee + Σ value = 1980 ≠ 1990`: the claimed formula subtracting the
cumulative fee does not hold of the recorded snapshots. -/
theorem holdings_snapshot_fee_not_subtracted :
    (portfolioD.all_holdings.getD 1 (construct_holdings 0)).total = 1990 ∧
    (portfolioD.all_holdings.getD 1 (construct_holdings 0)).cash = 990 ∧
    (portfolioD.all_holdings.getD 1 (construct_holdings 0)).fee = 10 ∧
    sumValues portfolioD.token_list
      (portfolioD.all_holdings.getD 1 (construct_holdings 0)).value = 1000 ∧
    ((990 : Rat) - 10 + 1000 ≠ 1990) := by
  refine ⟨?_, ?_, ?_, ?_, ?_⟩ <;>
    norm_num [portfolioD, update_timeindex, update_holdings_from_fill,
      construct_portfolio, construct_holdings, fillD, sumValues, List.getD]

/-- The Scenario C portfolio state: the fill applied to freshly constructed
holdings of `cash = 1000`. -/
def portfolioC : NaivePortfolio :=
  update_holdings_from_fill (construct_portfolio ["aave_usdc"] 1000) fillD

/-- C5 (counterexample): on the Scenario C fill (`fee = 10`,
`notional = 1000`, LONG) over fresh holdings of `cash = 1000`, the updated
cash is 990 — cash decreased by the fee — whereas decreasing cash by the
fill's notional would leave 0; the test-pinned value 990 refutes the claimed
`cash -= notional`. -/
theorem fill_decreases_cash_by_fee_not_notional :
    portfolioC.current_holdings.cash = 990 ∧
    (construct_portfolio ["aave_usdc"] 1000).current_holdings.cash -
      fillD.notional = 0 ∧
    ((990 : Rat) ≠ 0) := by
  refine ⟨?_, ?_, ?_⟩ <;>
    norm_num [portfolioC, update_holdings_from_fill, construct_portfolio,
      construct_holdings, fillD]

/-- C5 (amended): on a fill opening a LONG position, the holdings update
decreases cash by the fill's fee (the notional of the swap is not
exchanged), accumulates the fee into the cumulative fee, and decreases the
total by the same fee — so the total remains the updated cash plus the
existing per-token value. -/
theorem update_holdings_from_fill_bookkeeping (p : NaivePortfolio)
    (f : FillEvent) (_hdir : f.direction = "LONG") :
    (update_holdings_from_fill p f).current_holdings.cash =
      p.current_holdings.cash - f.fee ∧
    (update_holdings_from_fill p f).current_holdings.fee =
      p.current_holdings.fee + f.fee ∧
    (update_holdings_from_fill p f).current_holdings.total =
      p.current_holdings.total - f.fee ∧
    (p.current_holdings.total =
        p.current_holdings.cash + sumValues p.token_list p.current_holdings.value →
      (update_holdings_from_fill p f).current_holdings.total =
        (update_holdings_from_fill p f).current_holdings.cash +
          sumValues p.token_list
            (update_holdings_from_fill p f).current_holdings.value) := by
  refine ⟨rfl, rfl, rfl, ?_⟩
  intro htot
  show p.current_holdings.total - f.fee =
    p.current_holdings.cash - f.fee +
      sumValues p.token_list p.current_holdings.value
  rw [htot]
  ring

/-- C5 (witness): the fill-bookkeeping theorem applied to the Scenario C
input, reproducing `cash = 990`, `fee = 10`, `total = 990`. -/
theorem update_holdings_from_fill_bookkeeping_witness :
    portfolioC.current_holdings.cash =
      (construct_portfolio ["aave_usdc"] 1000).current_holdings.cash -
        fillD.fee ∧
    portfolioC.current_holdings.total =
      (construct_portfolio ["aave_usdc"] 1000).current_holdings.total -
        fillD.fee :=
  ⟨(update_holdings_from_fill_bookkeeping
      (construct_portfolio ["aave_usdc"] 1000) fillD rfl).1,
   (update_holdings_from_fill_bookkeeping
      (construct_portfolio ["aave_usdc"] 1000) fillD rfl).2.2.1⟩

/-- C8: the finalize step is idempotent — it overwrites `equity_curve` with
a pure function of the untouched `all_holdings`, so running it twice equals
running it once, Equity Curve Rows included. -/
theorem create_equity_curve_dataframe_idempotent (p : NaivePortfolio) :
    create_equity_curve_dataframe (create_equity_curve_dataframe p) =
      create_equity_curve_dataframe p := rfl

